import Mathlib

/-!
Verification of `screenshot-tool/create_test_workbook.py`, a deterministic
Excel fixture generator built on openpyxl.  The script constructs an
in-memory workbook model (three sheets of cells with values, styles,
formula strings, conditional-format rules, named ranges, freeze panes and
column widths) and saves it to a fixed path.

We give a shallow embedding of the workbook model and of the builder:
every cell/style assignment of the Python source becomes an explicit
update of a `Sheet` value, performed in source order, so the final
`Workbook` value is the exact model the script would hand to `wb.save`.
-/

namespace ExcelFixture

/-- A cell value as stored by openpyxl: empty, an integer, a string
(formulas are strings beginning with "="), or a decimal number
(represented exactly as a rational). -/
inductive CellValue where
  | empty : CellValue
  | intVal : Int → CellValue
  | strVal : String → CellValue
  | ratVal : Rat → CellValue
deriving DecidableEq, Repr

/-- Font attributes used by the script: `Font(bold=True)` and
`Font(color="990000")`. -/
structure Font where
  bold : Bool
  color : Option String
deriving DecidableEq, Repr

/-- `PatternFill(start_color=.., end_color=.., fill_type="solid")`. -/
structure Fill where
  startColor : String
  endColor : String
  fillType : String
deriving DecidableEq, Repr

/-- `Border(bottom=Side(style="thin"))`: only the bottom side is used. -/
structure Border where
  bottom : Option String
deriving DecidableEq, Repr

/-- One spreadsheet cell: value plus the style attributes the script
assigns.  `none` for font/fill/border means the openpyxl default; the
default number format is "General". -/
structure Cell where
  value : CellValue
  font : Option Font
  fill : Option Fill
  border : Option Border
  numberFormat : String
deriving DecidableEq, Repr

def defaultCell : Cell :=
  { value := .empty, font := none, fill := none, border := none,
    numberFormat := "General" }

/-- `CellIsRule(operator=.., formula=[..], fill=.., font=..)` added via
`ws.conditional_formatting.add(range, rule)`. -/
structure CondFormatRule where
  cellRange : String
  operator : String
  formula : List String
  fill : Fill
  font : Font
deriving DecidableEq, Repr

/-- One worksheet: title, sparse cell grid (an assignment log keyed by
(row, column), both 1-based, newest entry first — see
`Sheet.modifyCell`), conditional-format rules, freeze-pane anchor, and
column widths keyed by column letter. -/
structure Sheet where
  title : String
  cells : List ((Nat × Nat) × Cell)
  condFormats : List CondFormatRule
  freezePanes : Option String
  colWidths : List (String × Nat)
deriving DecidableEq, Repr

/-- A fresh worksheet, as `Workbook()` / `create_sheet` produce it. -/
def emptySheet (t : String) : Sheet :=
  { title := t, cells := [], condFormats := [], freezePanes := none,
    colWidths := [] }

/-- Read the cell at (r, c): the newest logged state of that cell;
cells never touched read as the default cell, exactly as openpyxl
materialises fresh cells with default value `None` and default style. -/
def Sheet.getCell (ws : Sheet) (r c : Nat) : Cell :=
  match ws.cells.find? (fun p => p.1 == (r, c)) with
  | some p => p.2
  | none => defaultCell

/-- openpyxl's `ws.cell(row=r, column=c)` followed by one attribute (or
value) assignment: the cell's new state is `f` applied to its current
state.  The sparse grid is kept as an assignment log, newest entry
first; since `getCell` reads the newest entry for a key, the log
denotes exactly the openpyxl cell dictionary after the assignment. -/
def Sheet.modifyCell (ws : Sheet) (r c : Nat) (f : Cell → Cell) : Sheet :=
  { ws with cells := ((r, c), f (ws.getCell r c)) :: ws.cells }

def Sheet.setValue (ws : Sheet) (r c : Nat) (v : CellValue) : Sheet :=
  ws.modifyCell r c (fun cl => { cl with value := v })

def Sheet.setFont (ws : Sheet) (r c : Nat) (f : Font) : Sheet :=
  ws.modifyCell r c (fun cl => { cl with font := some f })

def Sheet.setFill (ws : Sheet) (r c : Nat) (f : Fill) : Sheet :=
  ws.modifyCell r c (fun cl => { cl with fill := some f })

def Sheet.setBorder (ws : Sheet) (r c : Nat) (b : Border) : Sheet :=
  ws.modifyCell r c (fun cl => { cl with border := some b })

def Sheet.setNumberFormat (ws : Sheet) (r c : Nat) (nf : String) : Sheet :=
  ws.modifyCell r c (fun cl => { cl with numberFormat := nf })

def Sheet.setColWidth (ws : Sheet) (col : String) (w : Nat) : Sheet :=
  { ws with colWidths := ws.colWidths ++ [(col, w)] }

/-- `DefinedName(name, attr_text=...)`. -/
structure DefinedName where
  name : String
  attrText : String
deriving DecidableEq, Repr

/-- The workbook model: ordered sheets plus workbook-scoped names. -/
structure Workbook where
  sheets : List Sheet
  definedNames : List DefinedName
deriving DecidableEq, Repr

/-- Python's `range(a, b)`: the list [a, a+1, ..., b-1]. -/
def pyRange (a b : Nat) : List Nat :=
  (List.range (b - a)).map (a + ·)

/-- `openpyxl.utils.get_column_letter`: 1 → "A", ..., 26 → "Z",
27 → "AA", ... (divmod loop, written with fuel for structural
recursion; `n` itself is always enough fuel). -/
def colLetterAux : Nat → Nat → List Char → List Char
  | 0, _, acc => acc
  | _, 0, acc => acc
  | fuel + 1, n, acc =>
    let r0 := n % 26
    let q := if r0 = 0 then n / 26 - 1 else n / 26
    let r := if r0 = 0 then 26 else r0
    colLetterAux fuel q (Char.ofNat (r + 64) :: acc)

def get_column_letter (n : Nat) : String :=
  String.mk (colLetterAux n n [])

/-! ## The builder, line by line from `create_test_workbook.py` -/

-- 色定義 (colour definitions), lines 30-39
def blue_fill : Fill :=
  { startColor := "D9E1F2", endColor := "D9E1F2", fillType := "solid" }
def green_fill : Fill :=
  { startColor := "E2EFDA", endColor := "E2EFDA", fillType := "solid" }
def orange_fill : Fill :=
  { startColor := "FCE4D6", endColor := "FCE4D6", fillType := "solid" }
def gray_fill : Fill :=
  { startColor := "F2F2F2", endColor := "F2F2F2", fillType := "solid" }
def red_fill : Fill :=
  { startColor := "FC9090", endColor := "FC9090", fillType := "solid" }
def bold_font : Font := { bold := true, color := none }
def red_font : Font := { bold := false, color := some "990000" }
def thin_border : Border := { bottom := some "thin" }

-- Sheet1: EstimateData, header row (line 48)
def headers : List String :=
  ["No", "Name", "Dept", "Grade", "BaseSalary",
   "RoleAllow", "Commute", "Total", "MoM", "Note"]

-- Sub-header row (line 57)
def sub_headers : List String :=
  ["", "", "", "", "(JPY)", "(JPY)", "(JPY)", "(JPY)", "(%)", ""]

/-- One record of the sample-data table (lines 63-74). -/
structure DataRec where
  no : Int
  name : String
  dept : String
  grade : String
  base : Int
  role : Int
  commute : Int
deriving DecidableEq, Repr

def data : List DataRec :=
  [⟨1, "Tanaka",    "Sales", "M1", 350000, 50000, 15000⟩,
   ⟨2, "Yamada",    "HR",    "S3", 280000, 0,     20000⟩,
   ⟨3, "Suzuki",    "Tech",  "E2", 320000, 30000, 12000⟩,
   ⟨4, "Sato",      "Sales", "M2", 380000, 60000, 18000⟩,
   ⟨5, "Takahashi", "Admin", "S2", 260000, 0,     10000⟩,
   ⟨6, "Watanabe",  "Tech",  "E3", 340000, 35000, 25000⟩,
   ⟨7, "Ito",       "HR",    "S1", 250000, 0,     8000⟩,
   ⟨8, "Nakamura",  "Sales", "M1", 350000, 50000, 15000⟩,
   ⟨9, "Kobayashi", "Tech",  "E1", 300000, 20000, 22000⟩,
   ⟨10, "Kato",     "Admin", "S3", 280000, 0,     10000⟩]

/-- Lines 50-54: header cell at row 1 — value, bold font, blue fill,
thin bottom border. -/
def addHeaderCell (ws : Sheet) (c : Nat) (h : String) : Sheet :=
  ((((ws.setValue 1 c (.strVal h)).setFont 1 c bold_font).setFill
    1 c blue_fill).setBorder 1 c thin_border)

/-- Lines 58-60: sub-header cell at row 2 — value and green fill. -/
def addSubHeaderCell (ws : Sheet) (c : Nat) (sh : String) : Sheet :=
  (ws.setValue 2 c (.strVal sh)).setFill 2 c green_fill

/-- Lines 75-89: one data row at row = i + 3: literal columns 1-7
(columns 5-7 number-formatted), the Total formula in column 8 and the
MoM formula in column 9. -/
def addDataRow (ws : Sheet) (i : Nat) (rec : DataRec) : Sheet :=
  let row := i + 3
  let ws := ws.setValue row 1 (.intVal rec.no)
  let ws := ws.setValue row 2 (.strVal rec.name)
  let ws := ws.setValue row 3 (.strVal rec.dept)
  let ws := ws.setValue row 4 (.strVal rec.grade)
  let ws := (ws.setValue row 5 (.intVal rec.base)).setNumberFormat row 5 "#,##0"
  let ws := (ws.setValue row 6 (.intVal rec.role)).setNumberFormat row 6 "#,##0"
  let ws := (ws.setValue row 7 (.intVal rec.commute)).setNumberFormat row 7 "#,##0"
  let ws := ws.setValue row 8
    (.strVal ("=E" ++ toString row ++ "+F" ++ toString row ++ "+G" ++ toString row))
  let ws := ws.setNumberFormat row 8 "#,##0"
  let ws := ws.setValue row 9
    (.strVal ("=ROUND((H" ++ toString row ++ "-H" ++ toString row ++
              "*0.98)/H" ++ toString row ++ "*100,1)"))
  ws.setNumberFormat row 9 "0.0"

/-- Lines 93-98: total-row cell at (13, c): SUM formula over rows 3-12
of the column, number format, bold font, orange fill. -/
def addTotalCell (ws : Sheet) (c : Nat) : Sheet :=
  let cl := get_column_letter c
  let ws := ws.setValue 13 c (.strVal ("=SUM(" ++ cl ++ "3:" ++ cl ++ "12)"))
  let ws := ws.setNumberFormat 13 c "#,##0"
  (ws.setFont 13 c bold_font).setFill 13 c orange_fill

-- Line 117: column widths of EstimateData
def col_widths : List (String × Nat) :=
  [("A", 5), ("B", 14), ("C", 8), ("D", 8), ("E", 12),
   ("F", 12), ("G", 12), ("H", 14), ("I", 8), ("J", 10)]

/-- Sheet 1, `EstimateData`: the renamed active sheet (lines 44-120). -/
def ws1 : Sheet :=
  -- ws1 = wb.active; ws1.title = "EstimateData"
  let ws := { emptySheet "Sheet" with title := "EstimateData" }
  -- header row
  let ws := headers.enum.foldl (fun ws p => addHeaderCell ws (p.1 + 1) p.2) ws
  -- sub-header row
  let ws := sub_headers.enum.foldl
    (fun ws p => addSubHeaderCell ws (p.1 + 1) p.2) ws
  -- ten sample-data rows, rows 3-12
  let ws := data.enum.foldl (fun ws p => addDataRow ws p.1 p.2) ws
  -- total row 13: bold "Total" label, SUM cells for columns 5-8
  let ws := (ws.setValue 13 4 (.strVal "Total")).setFont 13 4 bold_font
  let ws := (pyRange 5 9).foldl addTotalCell ws
  -- style-only empty cells, rows 15-20 × columns 1-10 (lines 102-104)
  let ws := (pyRange 15 21).foldl
    (fun ws r => (pyRange 1 11).foldl (fun ws c => ws.setFill r c gray_fill) ws)
    ws
  -- conditional formatting on I3:I12 (lines 107-111)
  let ws := { ws with condFormats := ws.condFormats ++
    [({ cellRange := "I3:I12", operator := "greaterThan", formula := ["2"],
        fill := red_fill, font := red_font } : CondFormatRule)] }
  -- freeze panes (line 114)
  let ws := { ws with freezePanes := some "A3" }
  -- column widths (lines 117-120)
  col_widths.foldl (fun ws p => ws.setColWidth p.1 p.2) ws

-- Sheet2: DeptSummary (lines 125-151)
def dept_headers : List String := ["Dept", "Count", "TotalCost", "AvgSalary"]

def depts : List String := ["Sales", "HR", "Tech", "Admin"]

/-- Lines 128-131: DeptSummary header cell — value, bold, blue fill. -/
def addDeptHeaderCell (ws : Sheet) (c : Nat) (h : String) : Sheet :=
  ((ws.setValue 1 c (.strVal h)).setFont 1 c bold_font).setFill 1 c blue_fill

/-- Lines 134-142: one department row at row = d + 2 with the three
cross-sheet formulas. -/
def addDeptRow (ws : Sheet) (d : Nat) (dept : String) : Sheet :=
  let row := d + 2
  let ws := ws.setValue row 1 (.strVal dept)
  let ws := ws.setValue row 2
    (.strVal ("=COUNTIF(EstimateData!C:C,A" ++ toString row ++ ")"))
  let ws := ws.setValue row 3
    (.strVal ("=SUMIF(EstimateData!C:C,A" ++ toString row ++
              ",EstimateData!H:H)"))
  let ws := ws.setNumberFormat row 3 "#,##0"
  let ws := ws.setValue row 4
    (.strVal ("=IF(B" ++ toString row ++ ">0,C" ++ toString row ++ "/B" ++
              toString row ++ ",0)"))
  ws.setNumberFormat row 4 "#,##0"

/-- Sheet 2, `DeptSummary` (lines 125-151). -/
def ws2 : Sheet :=
  let ws := emptySheet "DeptSummary"
  let ws := dept_headers.enum.foldl
    (fun ws p => addDeptHeaderCell ws (p.1 + 1) p.2) ws
  let ws := depts.enum.foldl (fun ws p => addDeptRow ws p.1 p.2) ws
  ["A", "B", "C", "D"].foldl (fun ws col => ws.setColWidth col 14) ws

-- Sheet3: Settings (lines 156-173)
def settings : List (String × CellValue) :=
  [("CalcMonth", .strVal "2026-02"),
   ("TaxRate", .ratVal (1 / 10)),
   ("InsuranceRate", .ratVal (15 / 100)),
   ("CommuteLimit", .intVal 30000),
   ("Author", .strVal "BP_User")]

/-- Sheet 3, `Settings` (lines 156-173). -/
def ws3 : Sheet :=
  let ws := emptySheet "Settings"
  let ws := (ws.setValue 1 1 (.strVal "SettingName")).setFont 1 1 bold_font
  let ws := (ws.setValue 1 2 (.strVal "Value")).setFont 1 2 bold_font
  let ws := settings.enum.foldl
    (fun ws p =>
      ((ws.setValue (p.1 + 2) 1 (.strVal p.2.1)).setValue (p.1 + 2) 2 p.2.2))
    ws
  (ws.setColWidth "A" 18).setColWidth "B" 14

-- Lines 145-148: the two workbook-scoped defined names
def dn1 : DefinedName :=
  { name := "DeptMaster", attrText := "DeptSummary!$A$2:$A$5" }
def dn2 : DefinedName :=
  { name := "TotalCost", attrText := "DeptSummary!$C$2:$C$5" }

/-- The complete in-memory workbook the script hands to `wb.save`. -/
def buildWorkbook : Workbook :=
  { sheets := [ws1, ws2, ws3], definedNames := [dn1, dn2] }

/-- Line 23: the fixed output path, relative to the script's directory
(the only environment the script consults, and only for the path). -/
def outputPath (scriptDir : String) : String :=
  scriptDir ++ "/TestWorkbook_HR_Estimate.xlsx"

/-- Result of a successful run: the saved workbook model, where it was
written, and the summary lines printed (lines 179-183). -/
structure RunResult where
  workbook : Workbook
  savedPath : String
  printed : List String
deriving Repr

/-- `create_test_workbook`, lines 26-183, with the file system made
explicit: `save` models `wb.save` and may fail (unwritable path, disk
full, ...).  The function catches nothing: a save error is returned
unchanged, and building itself is total. -/
def create_test_workbook (scriptDir : String)
    (save : String → Workbook → Except String Unit) :
    Except String RunResult :=
  let wb := buildWorkbook
  match save (outputPath scriptDir) wb with
  | .error e => .error e
  | .ok _ =>
    .ok ({ workbook := wb,
           savedPath := outputPath scriptDir,
           printed :=
            ["Test workbook created: " ++ outputPath scriptDir,
             "  Sheet1: EstimateData (freeze panes, formulas, conditional format, format-only empty cells)",
             "  Sheet2: DeptSummary (cross-sheet formulas, named ranges)",
             "  Sheet3: Settings (master data)",
             "  Note: .xlsx format (no VBA). For VBA testing, use PS script on a PC with valid Excel license."] } : RunResult)

/-! ## Auxiliary semantic definitions used by the claims -/

/-- The cell range a defined name's `attr_text` denotes, with the
absolute-reference markers (the dollar signs) removed:
"DeptSummary!$A$2:$A$5" denotes the range DeptSummary!A2:A5. -/
def rangeDenoted (s : String) : String :=
  String.mk (s.data.filter (fun ch => ch ≠ '$'))

/-- Rounding half away from zero, the behaviour of the spreadsheet
ROUND function on the integer-tenths grid. -/
def roundHalfAway (x : Rat) : Int :=
  if 0 ≤ x then ⌊x + 1 / 2⌋ else -⌊-x + 1 / 2⌋

/-- Spreadsheet `ROUND(x, 1)`: round to one decimal place. -/
def excelRound1 (x : Rat) : Rat :=
  (roundHalfAway (x * 10) : Rat) / 10

/-- Exact rational evaluation of the month-over-month formula text
`=ROUND((H-H*0.98)/H*100,1)` written to column I, at a value `h` of the
referenced cell H. -/
def momExpr (h : Rat) : Rat :=
  excelRound1 ((h - h * (98 / 100)) / h * 100)

/-- A file system in which the save succeeds (used to exhibit a
concrete successful run). -/
def sampleSave : String → Workbook → Except String Unit :=
  fun _ _ => .ok ()

/-- The run result of one concrete successful invocation. -/
def sampleRun : RunResult :=
  match create_test_workbook "dir" sampleSave with
  | .ok w => w
  | .error _ => { workbook := buildWorkbook, savedPath := "", printed := [] }

/-- The data record written to row r of EstimateData (rows 3-12): the
`i`-th record lands in row `i + 3`. -/
def rowRec (r : Nat) : DataRec :=
  data.getD (r - 3) ⟨0, "", "", "", 0, 0, 0⟩

/-- Exact evaluation of row r's Total formula `=E{r}+F{r}+G{r}`: the sum
of the three literal values stored in columns E, F and G of that row. -/
def rowTotal (r : Nat) : Int :=
  (rowRec r).base + (rowRec r).role + (rowRec r).commute

/-! ## Helper lemmas -/

theorem mem_pyRange {x a b : Nat} : x ∈ pyRange a b ↔ a ≤ x ∧ x < b := by
  unfold pyRange
  constructor
  · intro hx
    obtain ⟨y, hy, rfl⟩ := List.mem_map.mp hx
    have := List.mem_range.mp hy
    omega
  · intro hx
    exact List.mem_map.mpr ⟨x - a, List.mem_range.mpr (by omega), by omega⟩

/-- A successful run's workbook is the built workbook: the only exit of
`create_test_workbook` that returns a result carries `buildWorkbook`. -/
theorem run_ok_workbook (d : String)
    (s : String → Workbook → Except String Unit) (w : RunResult)
    (h : create_test_workbook d s = .ok w) : w.workbook = buildWorkbook := by
  simp only [create_test_workbook] at h
  cases hs : s (outputPath d) buildWorkbook with
  | error e =>
    rw [hs] at h
    exact Except.noConfusion h
  | ok u =>
    rw [hs] at h
    injection h with h'
    rw [← h']

/-- The month-over-month expression evaluates to exactly 2 at every
nonzero total: (h - h·0.98)/h·100 = 2, and ROUND(2, 1) = 2. -/
theorem momExpr_eq_two (h : Rat) (hne : h ≠ 0) : momExpr h = 2 := by
  unfold momExpr
  have key : (h - h * (98 / 100)) / h * 100 = 2 := by
    field_simp
    ring
  rw [key]
  unfold excelRound1 roundHalfAway
  have h20 : ⌊(2 : Rat) * 10 + 1 / 2⌋ = 20 := by
    rw [Int.floor_eq_iff]
    norm_num
  rw [if_pos (by norm_num), h20]
  norm_num

/-- All sixty style-only cells, checked at once. -/
theorem grayRegionAll :
    ((pyRange 15 21).all fun r => (pyRange 1 11).all fun c =>
      ws1.getCell r c == { defaultCell with fill := some gray_fill }) = true := by
  decide

/-! ## The claims -/

/-- C1: The workbook produced by create_test_workbook contains exactly
three sheets named, in this order: "EstimateData", "DeptSummary",
"Settings" (the first sheet being the renamed active sheet). -/
theorem c1_three_sheets_in_order :
    buildWorkbook.sheets.map Sheet.title =
      ["EstimateData", "DeptSummary", "Settings"] ∧
    buildWorkbook.sheets.length = 3 ∧
    ws1.title = "EstimateData" := by
  exact ⟨by decide, by decide, by decide⟩

/-- C2: For every data row r with 3 ≤ r ≤ 12, the EstimateData cell at
(r, 8) (column H) holds exactly the formula text "=E{r}+F{r}+G{r}"
for that r (the same-row sum of base salary, role allowance and commute
allowance), with number format "#,##0". -/
theorem c2_total_formula (r : Nat) (h1 : 3 ≤ r) (h2 : r ≤ 12) :
    (ws1.getCell r 8).value =
      .strVal ("=E" ++ toString r ++ "+F" ++ toString r ++ "+G" ++ toString r) ∧
    (ws1.getCell r 8).numberFormat = "#,##0" := by
  interval_cases r <;> exact ⟨by decide, by decide⟩

theorem c2_total_formula_witness :
    (ws1.getCell 7 8).value =
      .strVal ("=E" ++ toString 7 ++ "+F" ++ toString 7 ++ "+G" ++ toString 7) ∧
    (ws1.getCell 7 8).numberFormat = "#,##0" :=
  c2_total_formula 7 (by decide) (by decide)

/-- C3: For every data row r with 3 ≤ r ≤ 12, the EstimateData cell at
(r, 9) (column I) holds exactly the formula text
"=ROUND((H{r}-H{r}*0.98)/H{r}*100,1)" for that r, with number format
"0.0" (one decimal place). -/
theorem c3_mom_formula (r : Nat) (h1 : 3 ≤ r) (h2 : r ≤ 12) :
    (ws1.getCell r 9).value =
      .strVal ("=ROUND((H" ++ toString r ++ "-H" ++ toString r ++
               "*0.98)/H" ++ toString r ++ "*100,1)") ∧
    (ws1.getCell r 9).numberFormat = "0.0" := by
  interval_cases r <;> exact ⟨by decide, by decide⟩

theorem c3_mom_formula_witness :
    (ws1.getCell 12 9).value =
      .strVal ("=ROUND((H" ++ toString 12 ++ "-H" ++ toString 12 ++
               "*0.98)/H" ++ toString 12 ++ "*100,1)") ∧
    (ws1.getCell 12 9).numberFormat = "0.0" :=
  c3_mom_formula 12 (by decide) (by decide)

/-- C4: In EstimateData row 13, the cell in column 4 holds the bold
label "Total", and for every column c with 5 ≤ c ≤ 8 (letters E through
H) the cell at (13, c) holds exactly the formula text "=SUM(L3:L12)"
where L is the letter of column c, and is bold, orange-filled, and
number-formatted "#,##0". -/
theorem c4_total_row (c : Nat) (h1 : 5 ≤ c) (h2 : c ≤ 8) :
    (ws1.getCell 13 4).value = .strVal "Total" ∧
    (ws1.getCell 13 4).font = some bold_font ∧
    bold_font.bold = true ∧
    (ws1.getCell 13 c).value =
      .strVal ("=SUM(" ++ get_column_letter c ++ "3:" ++
               get_column_letter c ++ "12)") ∧
    (ws1.getCell 13 c).font = some bold_font ∧
    (ws1.getCell 13 c).fill = some orange_fill ∧
    (ws1.getCell 13 c).numberFormat = "#,##0" := by
  interval_cases c <;>
    exact ⟨by decide, by decide, by decide, by decide, by decide,
           by decide, by decide⟩

theorem c4_total_row_witness :
    (ws1.getCell 13 4).value = .strVal "Total" ∧
    (ws1.getCell 13 4).font = some bold_font ∧
    bold_font.bold = true ∧
    (ws1.getCell 13 5).value =
      .strVal ("=SUM(" ++ get_column_letter 5 ++ "3:" ++
               get_column_letter 5 ++ "12)") ∧
    (ws1.getCell 13 5).font = some bold_font ∧
    (ws1.getCell 13 5).fill = some orange_fill ∧
    (ws1.getCell 13 5).numberFormat = "#,##0" :=
  c4_total_row 5 (by decide) (by decide)

/-- C5: For every row r with 15 ≤ r ≤ 20 and every column c with
1 ≤ c ≤ 10, the EstimateData cell at (r, c) has the gray fill
(a non-default fill) applied and holds no value, and re-running the
generator reproduces identical styling with no value (any two
successful runs agree on the whole workbook, hence on this cell). -/
theorem c5_styled_empty (r c : Nat) (hr1 : 15 ≤ r) (hr2 : r ≤ 20)
    (hc1 : 1 ≤ c) (hc2 : c ≤ 10) :
    (ws1.getCell r c).fill = some gray_fill ∧
    (ws1.getCell r c).fill ≠ defaultCell.fill ∧
    (ws1.getCell r c).value = .empty ∧
    (∀ d₁ s₁ w₁ d₂ s₂ w₂, create_test_workbook d₁ s₁ = .ok w₁ →
      create_test_workbook d₂ s₂ = .ok w₂ → w₁.workbook = w₂.workbook) := by
  have hcell : ws1.getCell r c = { defaultCell with fill := some gray_fill } := by
    have hrow := List.all_eq_true.mp grayRegionAll r
      (mem_pyRange.mpr ⟨hr1, by omega⟩)
    have hc := List.all_eq_true.mp hrow c (mem_pyRange.mpr ⟨hc1, by omega⟩)
    exact eq_of_beq hc
  refine ⟨by rw [hcell], by rw [hcell]; decide, by rw [hcell]; rfl, ?_⟩
  intro d₁ s₁ w₁ d₂ s₂ w₂ hh1 hh2
  rw [run_ok_workbook d₁ s₁ w₁ hh1, run_ok_workbook d₂ s₂ w₂ hh2]

theorem c5_styled_empty_witness :
    (ws1.getCell 15 1).fill = some gray_fill ∧
    (ws1.getCell 15 1).fill ≠ defaultCell.fill ∧
    (ws1.getCell 15 1).value = .empty ∧
    (∀ d₁ s₁ w₁ d₂ s₂ w₂, create_test_workbook d₁ s₁ = .ok w₁ →
      create_test_workbook d₂ s₂ = .ok w₂ → w₁.workbook = w₂.workbook) :=
  c5_styled_empty 15 1 (by decide) (by decide) (by decide) (by decide)

/-- C6: For every d in 0..3, DeptSummary row d+2 has column A equal to
the d-th element of ["Sales", "HR", "Tech", "Admin"], column B holding
exactly "=COUNTIF(EstimateData!C:C,A{row})", column C holding exactly
"=SUMIF(EstimateData!C:C,A{row},EstimateData!H:H)" with format "#,##0",
and column D holding exactly "=IF(B{row}>0,C{row}/B{row},0)" with
format "#,##0", where row = d+2. -/
theorem c6_dept_rows (d : Nat) (hd : d ≤ 3) :
    (ws2.getCell (d + 2) 1).value = .strVal (depts.getD d "") ∧
    depts = ["Sales", "HR", "Tech", "Admin"] ∧
    (ws2.getCell (d + 2) 2).value =
      .strVal ("=COUNTIF(EstimateData!C:C,A" ++ toString (d + 2) ++ ")") ∧
    (ws2.getCell (d + 2) 3).value =
      .strVal ("=SUMIF(EstimateData!C:C,A" ++ toString (d + 2) ++
               ",EstimateData!H:H)") ∧
    (ws2.getCell (d + 2) 3).numberFormat = "#,##0" ∧
    (ws2.getCell (d + 2) 4).value =
      .strVal ("=IF(B" ++ toString (d + 2) ++ ">0,C" ++ toString (d + 2) ++
               "/B" ++ toString (d + 2) ++ ",0)") ∧
    (ws2.getCell (d + 2) 4).numberFormat = "#,##0" := by
  interval_cases d <;>
    exact ⟨by decide, by decide, by decide, by decide, by decide,
           by decide, by decide⟩

theorem c6_dept_rows_witness :
    (ws2.getCell (0 + 2) 1).value = .strVal (depts.getD 0 "") ∧
    depts = ["Sales", "HR", "Tech", "Admin"] ∧
    (ws2.getCell (0 + 2) 2).value =
      .strVal ("=COUNTIF(EstimateData!C:C,A" ++ toString (0 + 2) ++ ")") ∧
    (ws2.getCell (0 + 2) 3).value =
      .strVal ("=SUMIF(EstimateData!C:C,A" ++ toString (0 + 2) ++
               ",EstimateData!H:H)") ∧
    (ws2.getCell (0 + 2) 3).numberFormat = "#,##0" ∧
    (ws2.getCell (0 + 2) 4).value =
      .strVal ("=IF(B" ++ toString (0 + 2) ++ ">0,C" ++ toString (0 + 2) ++
               "/B" ++ toString (0 + 2) ++ ",0)") ∧
    (ws2.getCell (0 + 2) 4).numberFormat = "#,##0" :=
  c6_dept_rows 0 (by decide)

/-- C7: Exactly two workbook-scoped named ranges are registered in the
saved workbook: "DeptMaster" bound to the range DeptSummary!A2:A5 and
"TotalCost" bound to the range DeptSummary!C2:C5 (stored in absolute
form, with dollar markers). -/
theorem c7_defined_names :
    buildWorkbook.definedNames = [dn1, dn2] ∧
    buildWorkbook.definedNames.length = 2 ∧
    dn1.name = "DeptMaster" ∧
    dn1.attrText = "DeptSummary!$A$2:$A$5" ∧
    rangeDenoted dn1.attrText = "DeptSummary!A2:A5" ∧
    dn2.name = "TotalCost" ∧
    dn2.attrText = "DeptSummary!$C$2:$C$5" ∧
    rangeDenoted dn2.attrText = "DeptSummary!C2:C5" := by
  exact ⟨rfl, rfl, rfl, rfl, by decide, rfl, rfl, by decide⟩

/-- C8: create_test_workbook is deterministic: the workbook model it
builds is a closed value, independent of the script directory and of
the file system, so any two runs that complete construct identical
workbook models. -/
theorem c8_two_runs_equal (d₁ d₂ : String)
    (s₁ s₂ : String → Workbook → Except String Unit) (w₁ w₂ : RunResult)
    (h₁ : create_test_workbook d₁ s₁ = .ok w₁)
    (h₂ : create_test_workbook d₂ s₂ = .ok w₂) :
    w₁.workbook = w₂.workbook ∧ w₁.workbook = buildWorkbook := by
  have e₁ := run_ok_workbook d₁ s₁ w₁ h₁
  have e₂ := run_ok_workbook d₂ s₂ w₂ h₂
  exact ⟨e₁.trans e₂.symm, e₁⟩

theorem c8_two_runs_equal_witness :
    sampleRun.workbook = sampleRun.workbook ∧
    sampleRun.workbook = buildWorkbook :=
  c8_two_runs_equal "dir" "dir" sampleSave sampleSave sampleRun sampleRun
    rfl rfl

/-- C9: create_test_workbook catches no exception: a save error
propagates unchanged out of the function, and the run succeeds exactly
when the file write succeeds — no error is ever converted to a
success. -/
theorem c9_error_propagation (d : String)
    (s : String → Workbook → Except String Unit) :
    (∀ e, s (outputPath d) buildWorkbook = .error e →
      create_test_workbook d s = .error e) ∧
    ((∃ w, create_test_workbook d s = .ok w) ↔
      s (outputPath d) buildWorkbook = .ok ()) := by
  refine ⟨?_, ?_, ?_⟩
  · intro e he
    simp only [create_test_workbook]
    rw [he]
  · rintro ⟨w, hw⟩
    simp only [create_test_workbook] at hw
    cases hs : s (outputPath d) buildWorkbook with
    | error e => rw [hs] at hw; exact Except.noConfusion hw
    | ok u => cases u; rfl
  · intro hs
    cases hcw : create_test_workbook d s with
    | ok w => exact ⟨w, rfl⟩
    | error e =>
      simp only [create_test_workbook] at hcw
      rw [hs] at hcw
      exact Except.noConfusion hcw

theorem c9_error_propagation_witness :
    create_test_workbook "dir" (fun _ _ => .error "disk full") =
      .error "disk full" :=
  (c9_error_propagation "dir" (fun _ _ => .error "disk full")).1
    "disk full" rfl

/-- C10: For every data row r in 3..12, the month-over-month formula
written to I(r) evaluates, in exact rational arithmetic, to exactly 2
at the row's total (which is positive, since every generated row has
base salary > 0), so the conditional-format rule on I3:I12 (operator
greaterThan, threshold 2) is never satisfied by any generated data
row. -/
theorem c10_mom_never_triggers (r : Nat) (h1 : 3 ≤ r) (h2 : r ≤ 12) :
    (ws1.getCell r 5).value = .intVal (rowRec r).base ∧
    (ws1.getCell r 6).value = .intVal (rowRec r).role ∧
    (ws1.getCell r 7).value = .intVal (rowRec r).commute ∧
    0 < (rowRec r).base ∧
    0 < rowTotal r ∧
    momExpr (rowTotal r : Rat) = 2 ∧
    ¬ momExpr (rowTotal r : Rat) > 2 ∧
    ws1.condFormats = [{ cellRange := "I3:I12", operator := "greaterThan",
                         formula := ["2"], fill := red_fill,
                         font := red_font }] := by
  have hpos : 0 < rowTotal r := by interval_cases r <;> decide
  have hne : ((rowTotal r : Int) : Rat) ≠ 0 := by
    simp only [ne_eq, Int.cast_eq_zero]
    omega
  have hmom := momExpr_eq_two _ hne
  refine ⟨?_, ?_, ?_, ?_, hpos, hmom, by rw [hmom]; norm_num, by decide⟩ <;>
    interval_cases r <;> decide

theorem c10_mom_never_triggers_witness :
    (ws1.getCell 3 5).value = .intVal (rowRec 3).base ∧
    (ws1.getCell 3 6).value = .intVal (rowRec 3).role ∧
    (ws1.getCell 3 7).value = .intVal (rowRec 3).commute ∧
    0 < (rowRec 3).base ∧
    0 < rowTotal 3 ∧
    momExpr (rowTotal 3 : Rat) = 2 ∧
    ¬ momExpr (rowTotal 3 : Rat) > 2 ∧
    ws1.condFormats = [{ cellRange := "I3:I12", operator := "greaterThan",
                         formula := ["2"], fill := red_fill,
                         font := red_font }] :=
  c10_mom_never_triggers 3 (by decide) (by decide)

end ExcelFixture
